import Mathlib

/-!
Verification development for the Demand-forecasting repository.

The repository's core logic lives in `src/inventory_data.py`,
`src/app.py`, `src/pages/2_Demand_Forecast.py` and
`src/pages/3_Inventory_Management.py`.  The definitions below are a
shallow embedding of that Python code:

* Python numbers are modelled as `ℤ`, `ℚ` or `ℝ`; `int(x)` applied to a
  non-negative value is `Int.floor`.
* The external call `scipy.stats.norm.ppf(service_level)` is an opaque
  numeric-library call; its result is passed in as a real parameter `z`
  (as `service_level` ranges over `(0,1)`, `z` ranges over all of `ℝ`).
* The numpy global random generator is modelled as an explicit state
  (`Rng`) threaded through the generator, with the actual pseudo-random
  draw function left abstract (`Entropy`), since numpy's Mersenne
  twister is an external library.
-/

/-- Logical three-way stock status.  The repository encodes this decision
three times (item level in `load_full_inventory`, `calc_status` inside
`get_dashboard_summary`, and `app.calculate_status`), each time as the
same pair of threshold tests against `reorder_point` and
`reorder_point * 0.5`; this enum is that shared decision, with the
string labels factored out into `plain_label` / `badge_label`. -/
inductive Status where
  | InStock
  | LowStock
  | Critical
deriving DecidableEq, Repr, Fintype

/-- The shared classifier decision: `if stock >= reorder: InStock
elif stock < reorder * 0.5: Critical else: LowStock`
(`src/inventory_data.py` lines 128-134, with labels abstracted). -/
def classify (stock reorder : ℤ) : Status :=
  if reorder ≤ stock then Status.InStock
  else if (stock : ℚ) < (reorder : ℚ) * 0.5 then Status.Critical
  else Status.LowStock

/-- Item-level status labels used by `load_full_inventory`
(`src/inventory_data.py` lines 76-81). -/
def plain_label : Status → String
  | Status.InStock => "In Stock"
  | Status.LowStock => "Low Stock"
  | Status.Critical => "Critical"

/-- Aggregate-level status labels used by `calc_status`
(`src/inventory_data.py` lines 128-134) and `app.calculate_status`
(`src/app.py` lines 101-107). -/
def badge_label : Status → String
  | Status.InStock => "🟢 In Stock"
  | Status.LowStock => "🟡 Low Stock"
  | Status.Critical => "🔴 Critical"

/-- `calc_status` from `src/inventory_data.py` lines 128-134:
`if stock >= reorder: '🟢 In Stock' elif stock < reorder * 0.5:
'🔴 Critical' else: '🟡 Low Stock'`. -/
def calc_status (stock reorder : ℤ) : String :=
  if reorder ≤ stock then "🟢 In Stock"
  else if (stock : ℚ) < (reorder : ℚ) * 0.5 then "🔴 Critical"
  else "🟡 Low Stock"

/-- `calculate_status` from `src/app.py` lines 101-107 (same body as
`calc_status`, duplicated in the source). -/
def calculate_status (stock reorder : ℤ) : String :=
  if reorder ≤ stock then "🟢 In Stock"
  else if (stock : ℚ) < (reorder : ℚ) * 0.5 then "🔴 Critical"
  else "🟡 Low Stock"

/-- Item-level status computation from `load_full_inventory`
(`src/inventory_data.py` lines 76-81): `if current_stock <
reorder_point * 0.5: 'Critical' elif current_stock < reorder_point:
'Low Stock' else: 'In Stock'`. -/
def item_status (stock reorder : ℤ) : String :=
  if (stock : ℚ) < (reorder : ℚ) * 0.5 then "Critical"
  else if stock < reorder then "Low Stock"
  else "In Stock"

/-- C2: for every non-negative integer stock and reorder point, `classify`
returns InStock when `stock ≥ reorder_point`, Critical when
`stock < reorder_point` and `stock < reorder_point * 0.5`, and LowStock
otherwise; when `reorder_point = 0` every non-negative stock classifies
as InStock. -/
theorem classify_spec (stock reorder : ℤ) (hs : 0 ≤ stock) (hr : 0 ≤ reorder) :
    (reorder ≤ stock → classify stock reorder = Status.InStock)
  ∧ (stock < reorder → (stock : ℚ) < (reorder : ℚ) * 0.5 →
      classify stock reorder = Status.Critical)
  ∧ (stock < reorder → ¬ ((stock : ℚ) < (reorder : ℚ) * 0.5) →
      classify stock reorder = Status.LowStock)
  ∧ (reorder = 0 → classify stock reorder = Status.InStock) := by
  refine ⟨?_, ?_, ?_, ?_⟩
  · intro h
    simp [classify, h]
  · intro h1 h2
    have h1' : ¬ reorder ≤ stock := not_le.mpr h1
    simp [classify, h1', h2]
  · intro h1 h2
    have h1' : ¬ reorder ≤ stock := not_le.mpr h1
    simp [classify, h1', h2]
  · intro h
    subst h
    simp [classify, hs]

/-- Witness for C2: `classify 0 0 = InStock` at the concrete input
`(0, 0)`. -/
theorem classify_spec_witness :
    (0 : ℤ) ≤ 0 ∧ classify 0 0 = Status.InStock :=
  ⟨le_refl 0, (classify_spec 0 0 le_rfl le_rfl).2.2.2 rfl⟩

/-- C10: the three status implementations induce the same three-way
partition of the non-negative (stock, reorder_point) domain — all three
factor through `classify` — but the item-level implementation returns
plain labels while both aggregate-level implementations return
emoji-prefixed labels, and no plain label ever equals a badge label. -/
theorem status_label_refinement (stock reorder : ℤ)
    (hs : 0 ≤ stock) (hr : 0 ≤ reorder) :
    item_status stock reorder = plain_label (classify stock reorder)
  ∧ calc_status stock reorder = badge_label (classify stock reorder)
  ∧ calculate_status stock reorder = badge_label (classify stock reorder)
  ∧ (∀ a b : Status, plain_label a ≠ badge_label b) := by
  refine ⟨?_, ?_, ?_, by decide⟩
  · rcases le_or_lt reorder stock with h | h
    · have hcast : (reorder : ℚ) ≤ (stock : ℚ) := by exact_mod_cast h
      have hr' : (0 : ℚ) ≤ (reorder : ℚ) := by exact_mod_cast hr
      have hhalf : ¬ ((stock : ℚ) < (reorder : ℚ) * 0.5) := by
        push_neg
        nlinarith
      have h2 : ¬ stock < reorder := not_lt.mpr h
      simp [item_status, classify, plain_label, h, hhalf, h2]
    · have h' : ¬ reorder ≤ stock := not_le.mpr h
      by_cases hc : (stock : ℚ) < (reorder : ℚ) * 0.5
      · simp [item_status, classify, plain_label, h', hc]
      · simp [item_status, classify, plain_label, h', hc, h]
  · unfold calc_status classify badge_label
    split_ifs <;> rfl
  · unfold calculate_status classify badge_label
    split_ifs <;> rfl

/-- Witness for C10: the refinement at the concrete point
`stock = 40, reorder = 100`. -/
theorem status_label_refinement_witness :
    (0 : ℤ) ≤ 40 ∧ (0 : ℤ) ≤ 100 ∧
    item_status 40 100 = plain_label (classify 40 100) :=
  ⟨by decide, by decide,
    (status_label_refinement 40 100 (by decide) (by decide)).1⟩

/-- `calculate_inventory_metrics` from `src/inventory_data.py` lines 6-16
(duplicated in `src/pages/3_Inventory_Management.py` lines 17-27).
The parameter `z` is the result of the opaque library call
`scipy.stats.norm.ppf(service_level)`.  Python source:
`safety_stock = z_score * demand_std_dev * np.sqrt(lead_time_days)`;
`reorder_point = (avg_demand_per_day * lead_time_days) + safety_stock`;
returns `int(max(safety_stock, 0))` and `int(max(reorder_point, 0))`
(`int` on a non-negative value is `Int.floor`). -/
noncomputable def calculate_inventory_metrics (z avg std L : ℝ) : ℤ × ℤ :=
  (⌊max (z * std * Real.sqrt L) 0⌋, ⌊max (avg * L + z * std * Real.sqrt L) 0⌋)

/-- Safety stock exactly as the spec words it: `floor(max(z *
demand_std_dev * sqrt(lead_time_days), 0))`. -/
noncomputable def spec_safety_stock (z std L : ℝ) : ℤ :=
  ⌊max (z * std * Real.sqrt L) 0⌋

/-- Reorder point exactly as claim C1 words it: `floor(max(
avg_demand_per_day * lead_time_days + safety_stock, 0))` where
`safety_stock` is the already floored and clamped `spec_safety_stock`. -/
noncomputable def spec_reorder_point (z avg std L : ℝ) : ℤ :=
  ⌊max (avg * L + (spec_safety_stock z std L : ℝ)) 0⌋

/-- Exception-handling wrapper of `calculate_inventory_metrics` in
`src/inventory_data.py` lines 8-19: the `try` body computes the genuine
pair; on any exception (modelled as `z? = none`, e.g. `norm.ppf`
producing NaN outside `(0,1)` and `int(nan)` raising) the `except`
branch prints a message and returns the fixed pair
`{'safety_stock': 100, 'reorder_point': 500}`. -/
noncomputable def calculate_inventory_metrics_handled
    (z? : Option ℝ) (avg std L : ℝ) : ℤ × ℤ :=
  match z? with
  | some zv => calculate_inventory_metrics zv avg std L
  | none => (100, 500)

/-- Duplicate of the calculator in
`src/pages/3_Inventory_Management.py` lines 17-27: no `try`/`except`
at all, so a numerical failure (`z? = none`) propagates to the caller,
modelled as `none`. -/
noncomputable def calculate_inventory_metrics_page
    (z? : Option ℝ) (avg std L : ℝ) : Option (ℤ × ℤ) :=
  z?.map (fun zv => calculate_inventory_metrics zv avg std L)

/-- C1 counterexample: at `z = 3/2` (the quantile of a service level of
about 0.933), `avg_demand_per_day = 1/2`, `demand_std_dev = 1`,
`lead_time_days = 1` — a valid input — the code's reorder point is `2`
(it adds the raw, un-floored safety stock `3/2` to the lead-time demand
`1/2` before flooring) while the claim's formula, which adds the
already-floored safety stock `1`, gives `⌊3/2⌋ = 1`. -/
theorem calculate_inventory_metrics_claim_false :
    (0 : ℝ) < 1/2 ∧ (1 : ℝ) ≤ 1 ∧ (0 : ℝ) ≤ 1 ∧
    (calculate_inventory_metrics (3/2) (1/2) 1 1).2 = 2 ∧
    spec_reorder_point (3/2) (1/2) 1 1 = 1 ∧
    (calculate_inventory_metrics (3/2) (1/2) 1 1).2 ≠
      spec_reorder_point (3/2) (1/2) 1 1 := by
  have hs : Real.sqrt 1 = 1 := Real.sqrt_one
  have hss : spec_safety_stock (3/2) 1 1 = 1 := by
    unfold spec_safety_stock
    rw [hs]
    norm_num
  have hrp : spec_reorder_point (3/2) (1/2) 1 1 = 1 := by
    unfold spec_reorder_point
    rw [hss]
    norm_num
  have hcode : (calculate_inventory_metrics (3/2) (1/2) 1 1).2 = 2 := by
    unfold calculate_inventory_metrics
    rw [hs]
    norm_num
  exact ⟨by norm_num, le_rfl, by norm_num, hcode, hrp, by omega⟩

/-- C1 amended: for every valid input, `safety_stock =
floor(max(z * demand_std_dev * sqrt(lead_time_days), 0))` and
`reorder_point = floor(max(avg_demand_per_day * lead_time_days +
z * demand_std_dev * sqrt(lead_time_days), 0))` — i.e. the reorder
point adds the raw (un-clamped, un-floored) safety-stock term before
flooring; both results are non-negative integers and
`reorder_point ≥ safety_stock ≥ 0`. -/
theorem calculate_inventory_metrics_correct (z avg std L : ℝ)
    (havg : 0 < avg) (hL : 1 ≤ L) (hstd : 0 ≤ std) :
    (calculate_inventory_metrics z avg std L).1 = spec_safety_stock z std L
  ∧ (calculate_inventory_metrics z avg std L).2 =
      ⌊max (avg * L + z * std * Real.sqrt L) 0⌋
  ∧ 0 ≤ (calculate_inventory_metrics z avg std L).1
  ∧ (calculate_inventory_metrics z avg std L).1 ≤
      (calculate_inventory_metrics z avg std L).2 := by
  refine ⟨rfl, rfl, ?_, ?_⟩
  · exact Int.floor_nonneg.mpr (le_max_right _ 0)
  · apply Int.floor_le_floor
    have hAL : 0 ≤ avg * L := le_of_lt (by nlinarith)
    exact max_le_max (le_add_of_nonneg_left hAL) le_rfl

/-- Witness for C1's amended theorem at the concrete valid input
`z = 1, avg = 2, std = 3, L = 1`. -/
theorem calculate_inventory_metrics_correct_witness :
    (0 : ℝ) < 2 ∧ (1 : ℝ) ≤ 1 ∧ (0 : ℝ) ≤ 3 ∧
    0 ≤ (calculate_inventory_metrics 1 2 3 1).1 ∧
    (calculate_inventory_metrics 1 2 3 1).1 ≤
      (calculate_inventory_metrics 1 2 3 1).2 :=
  ⟨by norm_num, le_rfl, by norm_num,
    (calculate_inventory_metrics_correct 1 2 3 1 (by norm_num) le_rfl
      (by norm_num)).2.2.1,
    (calculate_inventory_metrics_correct 1 2 3 1 (by norm_num) le_rfl
      (by norm_num)).2.2.2⟩

/-- C5 counterexample: the fallback pair is not distinguishable from a
genuinely computed result — the valid input `z = 100` (a quantile value
attained for some service level in `(0,1)`), `avg = 400`, `std = 1`,
`L = 1` genuinely computes exactly the fallback pair `(100, 500)`, and
the duplicate calculator in `src/pages/3_Inventory_Management.py`
propagates the failure instead of returning a fallback at all. -/
theorem fallback_indistinguishable :
    calculate_inventory_metrics_handled none 400 1 1 = (100, 500)
  ∧ (0 : ℝ) < 400 ∧ (1 : ℝ) ≤ 1 ∧ (0 : ℝ) ≤ 1
  ∧ calculate_inventory_metrics_handled (some 100) 400 1 1 = (100, 500)
  ∧ calculate_inventory_metrics_page none 400 1 1 = none := by
  refine ⟨rfl, by norm_num, le_rfl, by norm_num, ?_, rfl⟩
  show calculate_inventory_metrics 100 400 1 1 = (100, 500)
  unfold calculate_inventory_metrics
  rw [Real.sqrt_one]
  norm_num

/-- C5 amended: on a numerical failure the `inventory_data.py`
implementation returns the fixed fallback pair `(100, 500)` instead of
propagating, but the fallback carries no flag and is indistinguishable
from a genuinely computed result (valid inputs exist whose genuine
result is exactly `(100, 500)`); the duplicate implementation in
`src/pages/3_Inventory_Management.py` has no handler and propagates
the failure to the caller. -/
theorem fallback_behavior (avg std L : ℝ) :
    calculate_inventory_metrics_handled none avg std L = (100, 500)
  ∧ calculate_inventory_metrics_page none avg std L = none
  ∧ ∃ zv a s lt : ℝ, 0 < a ∧ 1 ≤ lt ∧ 0 ≤ s ∧
      calculate_inventory_metrics zv a s lt = (100, 500) := by
  refine ⟨rfl, rfl, 100, 400, 1, 1, by norm_num, le_rfl, by norm_num, ?_⟩
  unfold calculate_inventory_metrics
  rw [Real.sqrt_one]
  norm_num

/-- C7: increasing `demand_std_dev` while holding `z` (hence the service
level), `avg_demand_per_day` and `lead_time_days` fixed never decreases
the computed safety stock. -/
theorem safety_stock_monotone (z avg L std₁ std₂ : ℝ)
    (h0 : 0 ≤ std₁) (h12 : std₁ ≤ std₂) :
    (calculate_inventory_metrics z avg std₁ L).1 ≤
      (calculate_inventory_metrics z avg std₂ L).1 := by
  apply Int.floor_le_floor
  have hrw₁ : z * std₁ * Real.sqrt L = std₁ * (z * Real.sqrt L) := by ring
  have hrw₂ : z * std₂ * Real.sqrt L = std₂ * (z * Real.sqrt L) := by ring
  rw [hrw₁, hrw₂]
  rcases le_or_lt 0 (z * Real.sqrt L) with hc | hc
  · exact max_le_max (mul_le_mul_of_nonneg_right h12 hc) le_rfl
  · have h₁ : std₁ * (z * Real.sqrt L) ≤ 0 :=
      mul_nonpos_of_nonneg_of_nonpos h0 (le_of_lt hc)
    have h₂ : std₂ * (z * Real.sqrt L) ≤ 0 :=
      mul_nonpos_of_nonneg_of_nonpos (le_trans h0 h12) (le_of_lt hc)
    rw [max_eq_right h₁, max_eq_right h₂]

/-- Witness for C7 at the concrete input `z = 1, avg = 1, L = 4,
std₁ = 1, std₂ = 2`. -/
theorem safety_stock_monotone_witness :
    (0 : ℝ) ≤ 1 ∧ (1 : ℝ) ≤ 2 ∧
    (calculate_inventory_metrics 1 1 1 4).1 ≤
      (calculate_inventory_metrics 1 1 2 4).1 :=
  ⟨by norm_num, by norm_num,
    safety_stock_monotone 1 1 4 1 2 (by norm_num) (by norm_num)⟩

/-- One SKU-level row of the DataFrame built by `load_full_inventory`
(`src/inventory_data.py` lines 84-96): columns Material_ID, Material,
Current_Stock, Reorder_Point, Safety_Stock, Avg_Daily_Demand,
Lead_Time_Days, Unit_Cost, Supplier, Status, Service_Level. -/
structure ItemRecord where
  material_id : String
  material : String
  current_stock : ℤ
  reorder_point : ℤ
  safety_stock : ℤ
  avg_daily_demand : ℤ
  lead_time_days : ℤ
  unit_cost : ℚ
  supplier : String
  status : String
  service_level : String
deriving DecidableEq, Repr

/-- One row of the dashboard summary DataFrame built by
`get_dashboard_summary` (`src/inventory_data.py` lines 119-139):
columns Material, Stock, Reorder_Point, Status. -/
structure MaterialSummary where
  material : String
  stock : ℤ
  reorder_point : ℤ
  status : String
deriving DecidableEq, Repr

/-- One step of collecting the distinct group keys: keep the key if it
has not been seen yet. -/
def dedup_step (acc : List String) (m : String) : List String :=
  if m ∈ acc then acc else acc ++ [m]

/-- The distinct group keys of `groupby('Material')`, in first-seen
order (the aggregation contract leaves group order unspecified; pandas
happens to sort keys, which no claim depends on). -/
def dedup_first (l : List String) : List String :=
  l.foldl dedup_step []

/-- Rows of the group with key `m`, as selected by
`groupby('Material')`. -/
def members (items : List ItemRecord) (m : String) : List ItemRecord :=
  items.filter (fun r => r.material = m)

/-- pandas aggregation `'max'` over one (non-empty) group's column; the
`[]` case is never reached for a group produced by `groupby`. -/
def group_max : List ℤ → ℤ
  | [] => 0
  | x :: xs => xs.foldl max x

/-- One output row of `get_dashboard_summary` for group key `m`:
`Current_Stock` is aggregated with `'sum'`, `Reorder_Point` with
`'max'`, and `Status` is recomputed by `calc_status` from the two
aggregated values (`src/inventory_data.py` lines 119-139). -/
def summary_of (items : List ItemRecord) (m : String) : MaterialSummary :=
  { material := m,
    stock := ((members items m).map ItemRecord.current_stock).sum,
    reorder_point := group_max ((members items m).map ItemRecord.reorder_point),
    status := calc_status
      (((members items m).map ItemRecord.current_stock).sum)
      (group_max ((members items m).map ItemRecord.reorder_point)) }

/-- The aggregation core of `get_dashboard_summary`
(`src/inventory_data.py` lines 119-139): group the item rows by
Material and aggregate each group. -/
def summarize (items : List ItemRecord) : List MaterialSummary :=
  (dedup_first (items.map ItemRecord.material)).map (summary_of items)

theorem mem_foldl_dedup_step (l acc : List String) (a : String) :
    a ∈ l.foldl dedup_step acc ↔ a ∈ acc ∨ a ∈ l := by
  induction l generalizing acc with
  | nil => simp
  | cons m ms ih =>
    rw [List.foldl_cons, ih]
    by_cases hm : m ∈ acc
    · have hma : a = m → a ∈ acc := fun h => h ▸ hm
      simp only [dedup_step, if_pos hm, List.mem_cons]
      tauto
    · simp only [dedup_step, if_neg hm, List.mem_append, List.mem_singleton,
        List.mem_cons]
      tauto

theorem nodup_foldl_dedup_step (l : List String) (acc : List String)
    (h : acc.Nodup) : (l.foldl dedup_step acc).Nodup := by
  induction l generalizing acc with
  | nil => exact h
  | cons m ms ih =>
    rw [List.foldl_cons]
    by_cases hm : m ∈ acc
    · rw [dedup_step, if_pos hm]
      exact ih acc h
    · rw [dedup_step, if_neg hm]
      apply ih
      rw [List.nodup_append]
      exact ⟨h, List.nodup_singleton m, by simpa using hm⟩

theorem mem_dedup_first (l : List String) (a : String) :
    a ∈ dedup_first l ↔ a ∈ l := by
  rw [dedup_first, mem_foldl_dedup_step]
  simp

theorem nodup_dedup_first (l : List String) : (dedup_first l).Nodup :=
  nodup_foldl_dedup_step l [] List.nodup_nil

theorem le_foldl_max (xs : List ℤ) (x : ℤ) : x ≤ xs.foldl max x := by
  induction xs generalizing x with
  | nil => exact le_rfl
  | cons y ys ih => exact le_trans (le_max_left x y) (ih (max x y))

theorem mem_le_foldl_max (xs : List ℤ) (x y : ℤ) (hy : y ∈ xs) :
    y ≤ xs.foldl max x := by
  induction xs generalizing x with
  | nil => cases hy
  | cons a as ih =>
    rw [List.foldl_cons]
    rcases List.mem_cons.mp hy with h | h
    · subst h
      exact le_trans (le_max_right x y) (le_foldl_max as _)
    · exact ih _ h

theorem foldl_max_mem (xs : List ℤ) (x : ℤ) :
    xs.foldl max x = x ∨ xs.foldl max x ∈ xs := by
  induction xs generalizing x with
  | nil => exact Or.inl rfl
  | cons a as ih =>
    rw [List.foldl_cons]
    rcases ih (max x a) with h | h
    · rcases max_choice x a with he | he
      · exact Or.inl (h.trans he)
      · exact Or.inr (List.mem_cons.mpr (Or.inl (h.trans he)))
    · exact Or.inr (List.mem_cons.mpr (Or.inr h))

theorem group_max_mem (l : List ℤ) (h : l ≠ []) : group_max l ∈ l := by
  match l with
  | [] => exact absurd rfl h
  | x :: xs =>
    rw [group_max]
    rcases foldl_max_mem xs x with h' | h'
    · exact List.mem_cons.mpr (Or.inl h')
    · exact List.mem_cons.mpr (Or.inr h')

theorem le_group_max (l : List ℤ) (y : ℤ) (hy : y ∈ l) : y ≤ group_max l := by
  match l with
  | [] => cases hy
  | x :: xs =>
    rw [group_max]
    rcases List.mem_cons.mp hy with h | h
    · exact h ▸ le_foldl_max xs x
    · exact mem_le_foldl_max xs x y h

/-- C3: `summarize` produces exactly one summary per distinct material
category present in the input (its material column is the nodup list of
distinct input materials, with the same membership); each summary's
stock is the sum of its members' current stock, its reorder point is
the maximum of its members' reorder points (a member's value that
bounds all members), its status is `calc_status` of the two aggregates;
and the empty input yields the empty output. -/
theorem summarize_spec (items : List ItemRecord) :
    ((summarize items).map MaterialSummary.material =
        dedup_first (items.map ItemRecord.material))
  ∧ ((summarize items).map MaterialSummary.material).Nodup
  ∧ (∀ m : String, m ∈ (summarize items).map MaterialSummary.material ↔
        m ∈ items.map ItemRecord.material)
  ∧ (∀ s ∈ summarize items,
        s.stock = ((members items s.material).map ItemRecord.current_stock).sum
      ∧ s.reorder_point ∈
          (members items s.material).map ItemRecord.reorder_point
      ∧ (∀ r ∈ (members items s.material).map ItemRecord.reorder_point,
            r ≤ s.reorder_point)
      ∧ s.status = calc_status s.stock s.reorder_point)
  ∧ summarize ([] : List ItemRecord) = [] := by
  have hmat : (summarize items).map MaterialSummary.material =
      dedup_first (items.map ItemRecord.material) := by
    rw [summarize, List.map_map]
    exact List.map_congr_left (fun m _ => rfl) |>.trans (List.map_id _)
  refine ⟨hmat, ?_, ?_, ?_, rfl⟩
  · rw [hmat]
    exact nodup_dedup_first _
  · intro m
    rw [hmat]
    exact mem_dedup_first _ m
  · intro s hs
    rcases List.mem_map.mp hs with ⟨m, hm, rfl⟩
    have hmem : m ∈ items.map ItemRecord.material :=
      (mem_dedup_first _ m).mp hm
    rcases List.mem_map.mp hmem with ⟨r, hr, hrm⟩
    have hr' : r ∈ members items m := by
      rw [members, List.mem_filter]
      exact ⟨hr, by simp [hrm]⟩
    have hne : (members items m).map ItemRecord.reorder_point ≠ [] := by
      intro hnil
      rw [List.map_eq_nil_iff] at hnil
      rw [hnil] at hr'
      cases hr'
    refine ⟨rfl, ?_, ?_, rfl⟩
    · exact group_max_mem _ hne
    · intro x hx
      exact le_group_max _ x hx

/-- Concrete item used to instantiate the aggregation theorem. -/
def sample_item : ItemRecord :=
  { material_id := "M0000", material := "Steel", current_stock := 500,
    reorder_point := 200, safety_stock := 50, avg_daily_demand := 30,
    lead_time_days := 20, unit_cost := 100, supplier := "Supplier A",
    status := "In Stock", service_level := "95%" }

/-- Witness for C3 at the concrete one-item input `[sample_item]`. -/
theorem summarize_spec_witness :
    summary_of [sample_item] "Steel" ∈ summarize [sample_item]
  ∧ (summary_of [sample_item] "Steel").stock =
      ((members [sample_item] "Steel").map ItemRecord.current_stock).sum :=
  ⟨by decide,
    ((summarize_spec [sample_item]).2.2.2.1 (summary_of [sample_item] "Steel")
      (by decide)).1⟩


/-- First item of the spec's aggregation test case: stock 30, reorder
point 100. -/
def cement_a : ItemRecord :=
  { material_id := "C000", material := "Cement", current_stock := 30,
    reorder_point := 100, safety_stock := 20, avg_daily_demand := 10,
    lead_time_days := 15, unit_cost := 80, supplier := "Supplier B",
    status := "Critical", service_level := "95%" }

/-- Second item of the spec's aggregation test case: stock 40, reorder
point 120. -/
def cement_b : ItemRecord :=
  { material_id := "C001", material := "Cement", current_stock := 40,
    reorder_point := 120, safety_stock := 25, avg_daily_demand := 12,
    lead_time_days := 18, unit_cost := 90, supplier := "Supplier C",
    status := "Critical", service_level := "95%" }

theorem summarize_cement_pair_eq :
    summarize [cement_a, cement_b] =
      [{ material := "Cement", stock := 70, reorder_point := 120,
         status := "🟡 Low Stock" }] := by
  have hmat : [cement_a, cement_b].map ItemRecord.material =
      ["Cement", "Cement"] := by
    simp [cement_a, cement_b]
  have hd : dedup_first ["Cement", "Cement"] = ["Cement"] := by
    simp [dedup_first, dedup_step]
  have hmem : members [cement_a, cement_b] "Cement" = [cement_a, cement_b] := by
    simp [members, cement_a, cement_b]
  have hstock :
      ((members [cement_a, cement_b] "Cement").map ItemRecord.current_stock).sum
        = 70 := by
    rw [hmem]
    simp [cement_a, cement_b]
  have hrp :
      group_max ((members [cement_a, cement_b] "Cement").map
        ItemRecord.reorder_point) = 120 := by
    rw [hmem]
    simp [cement_a, cement_b, group_max]
  have h1 : ¬ ((120 : ℤ) ≤ 70) := by norm_num
  have h2 : ¬ (((70 : ℤ) : ℚ) < ((120 : ℤ) : ℚ) * 0.5) := by norm_num
  have hstat : calc_status 70 120 = "🟡 Low Stock" := by
    rw [calc_status, if_neg h1, if_neg h2]
  rw [summarize, hmat, hd, List.map_singleton, summary_of,
    hstock, hrp, hstat]

/-- C4 counterexample: for the claimed input — two Cement items with
(stock 30, reorder 100) and (stock 40, reorder 120) — the summary has
total stock 70 and representative reorder point 120, but its status is
not Critical: `70 < 120 * 0.5 = 60` is false (the spec's parenthetical
`70 < 60` is arithmetically wrong), so the classifier yields Low Stock. -/
theorem summarize_pair_not_critical :
    (summarize [cement_a, cement_b]).map MaterialSummary.stock = [70]
  ∧ (summarize [cement_a, cement_b]).map MaterialSummary.reorder_point = [120]
  ∧ (summarize [cement_a, cement_b]).map MaterialSummary.status ≠
      ["🔴 Critical"] := by
  rw [summarize_cement_pair_eq]
  refine ⟨rfl, rfl, ?_⟩
  intro h
  have := List.head_eq_of_cons_eq h
  exact absurd this (by decide)

/-- C4 amended: for two Cement items with (stock 30, reorder 100) and
(stock 40, reorder 120), `summarize` yields one summary with total
stock 70, representative reorder point 120 and status Low Stock
(since `60 ≤ 70 < 120`). -/
theorem summarize_pair_low_stock :
    summarize [cement_a, cement_b] =
      [{ material := "Cement", stock := 70, reorder_point := 120,
         status := "🟡 Low Stock" }]
  ∧ classify 70 120 = Status.LowStock := by
  have h1 : ¬ ((120 : ℤ) ≤ 70) := by norm_num
  have h2 : ¬ (((70 : ℤ) : ℚ) < ((120 : ℤ) : ℚ) * 0.5) := by norm_num
  exact ⟨summarize_cement_pair_eq, by rw [classify, if_neg h1, if_neg h2]⟩

/-- State of numpy's global random generator, abstracted: which seed it
was last seeded with and how many draws have been consumed since. -/
structure Rng where
  seed : ℕ
  k : ℕ
deriving DecidableEq, Repr

/-- The pseudo-random draw functions themselves (numpy's Mersenne
twister) are an external library and are left abstract: `int_draw seed
k lo hi` is the value of the `k`-th draw after seeding with `seed` when
that draw is `np.random.randint(lo, hi)`; `cost_draw seed k` is the
value of `round(np.random.uniform(50, 500), 2)` at that position. -/
structure Entropy where
  int_draw : ℕ → ℕ → ℤ → ℤ → ℤ
  cost_draw : ℕ → ℕ → ℚ

/-- `np.random.seed(s)`: resets the global generator state, discarding
whatever state it had before. -/
def np_seed (s : ℕ) (_g : Rng) : Rng :=
  { seed := s, k := 0 }

/-- `np.random.randint(lo, hi)`: consume one draw from the global
state. -/
def randint (e : Entropy) (lo hi : ℤ) (g : Rng) : ℤ × Rng :=
  (e.int_draw g.seed g.k lo hi, { g with k := g.k + 1 })

/-- `round(np.random.uniform(50, 500), 2)`: consume one draw from the
global state (the uniform draw and the 2-decimal rounding are folded
into the abstract `cost_draw`). -/
def draw_cost (e : Entropy) (g : Rng) : ℚ × Rng :=
  (e.cost_draw g.seed g.k, { g with k := g.k + 1 })

/-- Zero-padding of `j` in the f-string `M{i}{j:03d}`. -/
def pad3 (j : ℕ) : String :=
  if j < 10 then "00" ++ toString j
  else if j < 100 then "0" ++ toString j
  else toString j

/-- One iteration of the inner loop of `load_full_inventory`
(`src/inventory_data.py` lines 31-96): draw demand and lead time,
derive the metrics (with `z` standing for `norm.ppf(0.95)`), bias
the on-hand stock per material category, classify, and build the row.
`int()` of the non-negative products is `Int.floor` over `ℚ` (the
source computes them in binary floating point; no claim depends on the
rounding of these fixture values). -/
noncomputable def gen_item (e : Entropy) (z : ℝ) (material : String)
    (i j : ℕ) (g : Rng) : ItemRecord × Rng :=
  let p1 := randint e 20 80 g
  let avg := p1.1
  let std : ℝ := (avg : ℝ) * 0.3
  let p2 := randint e 15 45 p1.2
  let lt := p2.1
  let metrics := calculate_inventory_metrics z (avg : ℝ) std (lt : ℝ)
  let rp := metrics.2
  let p3 : ℤ × Rng :=
    if material = "Cement" then
      (if j = 0 then ⌊(rp : ℚ) * 0.3⌋
       else if j = 1 then ⌊(rp : ℚ) * 0.5⌋
       else if j = 2 then ⌊(rp : ℚ) * 0.6⌋
       else if j = 3 then ⌊(rp : ℚ) * 0.7⌋
       else ⌊(rp : ℚ) * 0.65⌋, p2.2)
    else if material = "Equipment" then
      (if j = 0 then ⌊(rp : ℚ) * 0.2⌋
       else if j = 1 then ⌊(rp : ℚ) * 0.3⌋
       else if j = 2 then ⌊(rp : ℚ) * 0.35⌋
       else if j = 3 then ⌊(rp : ℚ) * 0.4⌋
       else ⌊(rp : ℚ) * 0.25⌋, p2.2)
    else
      randint e ⌊(rp : ℚ) * 1.2⌋ ⌊(rp : ℚ) * 2.5⌋ p2.2
  let stock := p3.1
  let p4 := draw_cost e p3.2
  let p5 := randint e 0 5 p4.2
  ({ material_id := "M" ++ toString i ++ pad3 j,
     material := material,
     current_stock := stock,
     reorder_point := rp,
     safety_stock := metrics.1,
     avg_daily_demand := avg,
     lead_time_days := lt,
     unit_cost := p4.1,
     supplier := "Supplier " ++ String.singleton (Char.ofNat ((65 + p5.1).toNat)),
     status := item_status stock rp,
     service_level := "95%" }, p5.2)

/-- The inner loop `for j in range(n)` of `load_full_inventory`,
with `j` the next index and the second argument the number of
iterations left. -/
noncomputable def gen_inner (e : Entropy) (z : ℝ) (material : String)
    (i : ℕ) : ℕ → ℕ → Rng → List ItemRecord × Rng
  | _j, 0, g => ([], g)
  | j, n + 1, g =>
      let p := gen_item e z material i j g
      let rest := gen_inner e z material i (j + 1) n p.2
      (p.1 :: rest.1, rest.2)

/-- The outer loop `for i, material in enumerate(materials)` of
`load_full_inventory`. -/
noncomputable def gen_outer (e : Entropy) (z : ℝ) (n : ℕ) :
    List String → ℕ → Rng → List ItemRecord × Rng
  | [], _i, g => ([], g)
  | m :: ms, i, g =>
      let p := gen_inner e z m i 0 n g
      let rest := gen_outer e z n ms (i + 1) p.2
      (p.1 ++ rest.1, rest.2)

/-- The generator contract `generate(materials, items_per_material,
seed)`: reseed the global generator (as `load_full_inventory` does with
`np.random.seed(42)` at `src/inventory_data.py` line 28) and run the
two loops. -/
noncomputable def generate (e : Entropy) (z : ℝ) (materials : List String)
    (n : ℕ) (seed : ℕ) (g : Rng) : List ItemRecord :=
  (gen_outer e z n materials 0 (np_seed seed g)).1

/-- `load_full_inventory` from `src/inventory_data.py` lines 22-100:
the generator at the fixed materials list, 5 SKUs per material,
seed 42. -/
noncomputable def load_full_inventory (e : Entropy) (z : ℝ) (g : Rng) :
    List ItemRecord :=
  generate e z ["Steel", "Cement", "Conductors", "Equipment"] 5 42 g

/-- `get_dashboard_summary` from `src/inventory_data.py` lines 109-146:
load the full inventory, return the empty summary if it is empty,
otherwise group and aggregate. -/
noncomputable def get_dashboard_summary (e : Entropy) (z : ℝ) (g : Rng) :
    List MaterialSummary :=
  let items := load_full_inventory e z g
  if items = [] then [] else summarize items

/-- C8: generation is deterministic given the seed — two invocations of
the generator with the same material list, the same items-per-material
count, the same seed, the same draw functions and the same `z`, but
arbitrarily different prior global generator states, produce identical
ItemRecord sequences, because the generator reseeds the global state
first; likewise for `load_full_inventory` (its seed is fixed at 42). -/
theorem generate_deterministic (e : Entropy) (z : ℝ)
    (materials : List String) (n seed : ℕ) (g₁ g₂ : Rng) :
    generate e z materials n seed g₁ = generate e z materials n seed g₂
  ∧ load_full_inventory e z g₁ = load_full_inventory e z g₂ :=
  ⟨rfl, rfl⟩
